import Mathlib

/-!
Shallow embedding of src/main.py (a selenium-driven checkout automation).

The script drives a remote browser; we model the browser as an environment
describing how each driver call would respond, and each function of the
script as a pure Lean function from that environment to its boolean result
together with the ordered list of driver effects it performs.  Sleeps are
recorded in milliseconds.  Exceptions of the python code are modelled with
Except / option results exactly where the code catches them.
-/

namespace Checkout

/-- Selector strategies used by the script (the selenium By constants). -/
inductive Strategy where
  | css
  | idAttr
  | nameAttr
  | xpath
  | classNameTok
deriving DecidableEq, Repr

/-- A locator: a selector strategy plus the selector string. -/
structure Locator where
  strategy : Strategy
  sel : String
deriving DecidableEq, Repr

/-- Observable driver effects, recorded in the order the script issues them. -/
inductive Effect where
  | initDriver
  | navigate (url : String)
  | refresh
  | waitClickable (loc : Locator)
  | waitPresence (loc : Locator)
  | waitUrlEq (url : String)
  | hitTest
  | scrollIntoView
  | click (loc : Locator)
  | sleep (ms : Nat)
  | appendChar (c : Char)
  | dispatchEvent (ev : String)
deriving DecidableEq, Repr

/-- Number of click effects in a trace. -/
def countClicks : List Effect → Nat
  | [] => 0
  | Effect.click _ :: rest => countClicks rest + 1
  | _ :: rest => countClicks rest

/-- Number of page reload effects in a trace. -/
def countRefreshes : List Effect → Nat
  | [] => 0
  | Effect.refresh :: rest => countRefreshes rest + 1
  | _ :: rest => countRefreshes rest

/-- State of a resolved element as the remote document reports it.
`coveredAtCenter` records whether a point-hit test at the element's
geometric center resolves to some other element (an overlay covering it). -/
structure ElemState where
  displayed : Bool
  enabled : Bool
  coveredAtCenter : Bool
deriving DecidableEq, Repr

/-- Semantics of the selenium condition EC.element_to_be_clickable used at
src/main.py:119-121: the wait resolves exactly when the element is located,
displayed and enabled; it performs no point-hit test, so coverage at the
center is not consulted.  `none` models the element never resolving within
the timeout (TimeoutException). -/
def element_to_be_clickable (o : Option ElemState) : Option ElemState :=
  match o with
  | some e => if e.displayed && e.enabled then some e else none
  | none => none

/-- Environment for one `_wait_and_click` call: how the clickable wait
resolves, and whether an overlay occupies the target's hit-test point at the
moment of the k-th click attempt (per the session contract, a click on a
covered point raises ElementClickInterceptedException). -/
structure ClickEnv where
  elem : Option ElemState
  coveredAt : Nat → Bool

/-- The `while retries > 0` click-retry loop of src/main.py:140-150.
First argument of the recursion is the remaining retries (3 initially), the
second the index of the current attempt.  A successful click returns True
immediately; an intercepted click logs, sleeps 1 second, decrements. -/
def clickLoop (loc : Locator) (coveredAt : Nat → Bool) : Nat → Nat → Bool × List Effect
  | 0, _ => (false, [])
  | retries + 1, k =>
    if coveredAt k then
      let r := clickLoop loc coveredAt retries (k + 1)
      (r.1, Effect.click loc :: Effect.sleep 1000 :: r.2)
    else
      (true, [Effect.click loc])

/-- Model of `_wait_and_click` (src/main.py:116-153): wait for the element
to be clickable (a TimeoutException is caught and yields False); then run
the elementFromPoint visibility script, scrolling the element into view when
the hit test does not resolve to the element; then click with the bounded
retry loop.  The boolean result does not record why it is False. -/
def _wait_and_click (loc : Locator) (env : ClickEnv) : Bool × List Effect :=
  match element_to_be_clickable env.elem with
  | none => (false, [Effect.waitClickable loc])
  | some e =>
    let scrollTr := if e.coveredAtCenter then [Effect.scrollIntoView] else []
    let r := clickLoop loc env.coveredAt 3 0
    (r.1, Effect.waitClickable loc :: Effect.hitTest :: (scrollTr ++ r.2))

/-- Locator of the add-to-cart button (src/main.py:189, 215, 220). -/
def addCartLoc : Locator := ⟨Strategy.css, "div.p-product__btn-addcart a"⟩

/-- Environment for `_refresh_and_retry`: how the presence wait for the
add-to-cart button resolves on the k-th refresh attempt. -/
structure RefreshEnv where
  attemptElem : Nat → Option ElemState

/-- Whether refresh attempt k finds the button displayed and enabled
(src/main.py:187-195); `none` models the presence wait timing out, which the
per-attempt except swallows. -/
def refreshAttemptFound (env : RefreshEnv) (k : Nat) : Bool :=
  match env.attemptElem k with
  | some e => e.displayed && e.enabled
  | none => false

/-- The `for attempt in range(attempts)` loop of src/main.py:181-202.
Each attempt reloads the page, sleeps the settle delay, then waits for the
button; on success it returns True at once.  Between attempts (but not after
the last, src/main.py:201) it sleeps the delay again.  First recursion
argument is the number of attempts remaining, second the attempt index. -/
def refreshLoop (env : RefreshEnv) (delayMs : Nat) : Nat → Nat → Bool × List Effect
  | 0, _ => (false, [])
  | remaining + 1, k =>
    let tr0 := [Effect.refresh, Effect.sleep delayMs, Effect.waitPresence addCartLoc]
    if refreshAttemptFound env k then
      (true, tr0)
    else
      let trailing := if remaining == 0 then [] else [Effect.sleep delayMs]
      let r := refreshLoop env delayMs remaining (k + 1)
      (r.1, tr0 ++ trailing ++ r.2)

/-- Model of `_refresh_and_retry` (src/main.py:168-206); the code's defaults
are attempts = 3 and delay = 5 seconds. -/
def _refresh_and_retry (env : RefreshEnv) (attempts : Nat) (delayMs : Nat) : Bool × List Effect :=
  refreshLoop env delayMs attempts 0

/-- Locator of the modal content (src/main.py:226). -/
def modalLoc : Locator := ⟨Strategy.classNameTok, "cmp-modal-content"⟩

/-- Locator of the checkout button inside the modal (src/main.py:233). -/
def checkoutBtnLoc : Locator :=
  ⟨Strategy.css, "div.cmp-modal-content button.cmp-button:not(.cmp-button-content__close)"⟩

/-- Locator of the proceed-to-checkout button (src/main.py:244). -/
def proceedBtnLoc : Locator := ⟨Strategy.css, "button.btn.checkout"⟩

/-- Cart page url waited for at src/main.py:240. -/
def cartUrl : String := "https://www.casio.com/sg/checkout/cart"

/-- Environment for `add_to_cart`: the two `_wait_and_click` calls, the
refresh fallback, and the remaining waits of the function.  Navigation and
the two direct clicks are modelled as succeeding; a failing wait models the
corresponding TimeoutException, which the outer except turns into False. -/
structure CartEnv where
  productUrl : String
  primary : ClickEnv
  refreshEnv : RefreshEnv
  secondary : ClickEnv
  modalAppears : Bool
  checkoutBtnClickable : Bool
  cartUrlReached : Bool
  proceedBtnClickable : Bool

/-- The modal-and-checkout tail of `add_to_cart` (src/main.py:223-248),
reached once the add-to-cart button has been clicked. -/
def cartTail (env : CartEnv) : Bool × List Effect :=
  if env.modalAppears then
    if env.checkoutBtnClickable then
      if env.cartUrlReached then
        if env.proceedBtnClickable then
          (true, [Effect.waitPresence modalLoc, Effect.waitClickable checkoutBtnLoc,
                  Effect.click checkoutBtnLoc, Effect.waitUrlEq cartUrl,
                  Effect.waitClickable proceedBtnLoc, Effect.click proceedBtnLoc])
        else
          (false, [Effect.waitPresence modalLoc, Effect.waitClickable checkoutBtnLoc,
                   Effect.click checkoutBtnLoc, Effect.waitUrlEq cartUrl,
                   Effect.waitClickable proceedBtnLoc])
      else
        (false, [Effect.waitPresence modalLoc, Effect.waitClickable checkoutBtnLoc,
                 Effect.click checkoutBtnLoc, Effect.waitUrlEq cartUrl])
    else
      (false, [Effect.waitPresence modalLoc, Effect.waitClickable checkoutBtnLoc])
  else
    (false, [Effect.waitPresence modalLoc])

/-- Model of `add_to_cart` (src/main.py:208-251): navigate to the product
page; primary wait-and-click on the add-to-cart button; when it returns
False (for any reason), run `_refresh_and_retry()` and, if that succeeds,
a second wait-and-click; then the modal / checkout tail. -/
def add_to_cart (env : CartEnv) : Bool × List Effect :=
  let nav := [Effect.navigate env.productUrl]
  let p := _wait_and_click addCartLoc env.primary
  if p.1 then
    let t := cartTail env
    (t.1, nav ++ p.2 ++ t.2)
  else
    let r := _refresh_and_retry env.refreshEnv 3 5000
    if r.1 then
      let s := _wait_and_click addCartLoc env.secondary
      if s.1 then
        let t := cartTail env
        (t.1, nav ++ p.2 ++ r.2 ++ s.2 ++ t.2)
      else
        (false, nav ++ p.2 ++ r.2 ++ s.2)
    else
      (false, nav ++ p.2 ++ r.2)

/-- Active execution context of the session: the top-level document or the
payment (Stripe) sub-frame. -/
inductive Ctx where
  | top
  | stripeFrame
deriving DecidableEq, Repr

/-- Environment for `handle_payment`: whether the billing-checkbox block
succeeds (its failure is swallowed at src/main.py:373-374), whether the
Stripe iframe presence wait resolves, and whether the card-filling body
(card number, expiry, cvc) completes without raising. -/
structure PayEnv where
  checkboxOk : Bool
  iframeFound : Bool
  cardFieldsOk : Bool

/-- Semantics of driver.switch_to.default_content(): the active context
becomes the top-level document, whatever it was. -/
def switch_to_default_content : Ctx → Ctx := fun _ => Ctx.top

/-- The outer try-block of `handle_payment` (src/main.py:356-440), returning
either its boolean result or an escaped exception, together with the context
it leaves active.  A failed iframe wait raises before the frame is entered;
a failure in the card-filling body is re-raised from inside the frame
(src/main.py:438-440); on success the body itself switches back to the
top-level document before returning True (src/main.py:430). -/
def handle_payment_try (env : PayEnv) (ctx : Ctx) : Except Unit Bool × Ctx :=
  if env.iframeFound then
    let ctx1 := Ctx.stripeFrame
    if env.cardFieldsOk then
      (Except.ok true, switch_to_default_content ctx1)
    else
      (Except.error (), ctx1)
  else
    (Except.error (), ctx)

/-- Model of `handle_payment` (src/main.py:354-451): the outer except turns
any escaped exception into False (src/main.py:442-444), and the finally
block switches back to the top-level document on every exit path
(src/main.py:446-451). -/
def handle_payment (env : PayEnv) (ctx : Ctx) : Bool × Ctx :=
  let t := handle_payment_try env ctx
  let result :=
    match t.1 with
    | Except.ok b => b
    | Except.error _ => false
  (result, switch_to_default_content t.2)

/-- Per-character effect block of `simulate_typing` (src/main.py:389-399):
append the character to the field value, dispatch input, keydown, keypress,
keyup (in the order of the injected script), then sleep the per-character
delay. -/
def typeCharEffects (c : Char) (delayMs : Nat) : List Effect :=
  [Effect.appendChar c, Effect.dispatchEvent "input", Effect.dispatchEvent "keydown",
   Effect.dispatchEvent "keypress", Effect.dispatchEvent "keyup", Effect.sleep delayMs]

/-- Model of `simulate_typing` (src/main.py:387-399): the `for char in text`
loop, one effect block per character. -/
def simulate_typing : List Char → Nat → List Effect
  | [], _ => []
  | c :: rest, delayMs =>
    Effect.appendChar c :: Effect.dispatchEvent "input" :: Effect.dispatchEvent "keydown" ::
      Effect.dispatchEvent "keypress" :: Effect.dispatchEvent "keyup" ::
        Effect.sleep delayMs :: simulate_typing rest delayMs

/-- Modelled from the spec's words (section 4.5 and claim C6) for comparison
with `simulate_typing`: the event order the spec asserts is key-down,
key-press, key-up, input, after appending the character. -/
def simulate_typing_specOrder : List Char → Nat → List Effect
  | [], _ => []
  | c :: rest, delayMs =>
    Effect.appendChar c :: Effect.dispatchEvent "keydown" :: Effect.dispatchEvent "keypress" ::
      Effect.dispatchEvent "keyup" :: Effect.dispatchEvent "input" ::
        Effect.sleep delayMs :: simulate_typing_specOrder rest delayMs

/-- Value of the typed field after a trace of effects, starting from a given
value: appendChar is the `element.value += char` assignment, every other
effect leaves the value unchanged. -/
def typedValue : List Effect → List Char → List Char
  | [], v => v
  | Effect.appendChar c :: rest, v => typedValue rest (v ++ [c])
  | _ :: rest, v => typedValue rest v

/-- Behaviour of one checkout form field: whether its presence wait
resolves, and the value the field reports back (get_attribute of value)
as a function of the value written into it. -/
structure FieldSpec where
  present : Bool
  committed : String → String

/-- Environment for `fill_checkout_details`: the four address fields (in the
insertion order of the form_fields dict, src/main.py:293-298), the intended
values from the environment, and whether the continue-button block
succeeds. -/
structure CheckoutEnv where
  telephone : FieldSpec
  postcode : FieldSpec
  street1 : FieldSpec
  street2 : FieldSpec
  phoneVal : String
  postcodeVal : String
  street1Val : String
  street2Val : String
  continueOk : Bool

/-- One iteration of the field loop (src/main.py:314-329): the presence wait
must resolve, and after clear + send_keys the read-back value must equal the
intended value, else the raised ValueError is caught and the function
returns False. -/
def fill_verified_field (fs : FieldSpec) (value : String) : Bool :=
  fs.present && (fs.committed value == value)

/-- The `for field, value in form_fields.items()` loop: stops with False at
the first field whose fill or verification fails. -/
def fillFields : List (FieldSpec × String) → Bool
  | [] => true
  | (fs, v) :: rest => if fill_verified_field fs v then fillFields rest else false

/-- The four field bindings of `fill_checkout_details`, in source order. -/
def checkoutFieldList (env : CheckoutEnv) : List (FieldSpec × String) :=
  [(env.telephone, env.phoneVal), (env.postcode, env.postcodeVal),
   (env.street1, env.street1Val), (env.street2, env.street2Val)]

/-- Model of `fill_checkout_details` (src/main.py:289-352): fill and verify
the four fields in order, then handle the continue button. -/
def fill_checkout_details (env : CheckoutEnv) : Bool :=
  if fillFields (checkoutFieldList env) then env.continueOk else false

/-- Terminal outcome of one pipeline run: success, or the name of the first
failing step (the name run_checkout logs at src/main.py:487). -/
inductive PipelineResult where
  | success
  | failedAt (name : String)
deriving DecidableEq, Repr

/-- The `for step in steps` loop of run_checkout (src/main.py:485-489):
returns the outcome together with the names of the steps that were actually
invoked, in order. -/
def runSteps : List (String × Bool) → PipelineResult × List String
  | [] => (PipelineResult.success, [])
  | (n, ok) :: rest =>
    if ok then
      let r := runSteps rest
      (r.1, n :: r.2)
    else
      (PipelineResult.failedAt n, [n])

/-- Names of the four pipeline steps, in the order of the steps list at
src/main.py:477-483. -/
def checkout_step_names : List String :=
  ["add_to_cart", "handle_login", "fill_checkout_details", "handle_payment"]

/-- The pipeline core of run_checkout, abstracted over the boolean outcome
each named step would report. -/
def run_checkout_pipeline (f : String → Bool) : PipelineResult × List String :=
  runSteps (checkout_step_names.map fun n => (n, f n))

/-- Step outcome function assembling given results for the four steps. -/
def pipelineOutcomes (cart login details payment : Bool) : String → Bool :=
  fun n =>
    if n == "add_to_cart" then cart
    else if n == "handle_login" then login
    else if n == "fill_checkout_details" then details
    else payment

/-- The required environment variable names (src/main.py:40-44). -/
def required_vars : List String :=
  ["USERNAME", "PASS", "PHONE", "POSTCODE", "STREET1", "STREET2",
   "CARD_NUMBER", "CARD_EXPIRY", "CARD_CVC"]

/-- Truthiness test `not os.getenv(var)` (src/main.py:46): true when the
variable is unset or set to the empty string. -/
def envFalsy (env : String → Option String) (v : String) : Bool :=
  match env v with
  | none => true
  | some s => s == ""

/-- The missing_vars list comprehension (src/main.py:46). -/
def missing_vars (env : String → Option String) : List String :=
  required_vars.filter (envFalsy env)

/-- Model of `_load_environment` (src/main.py:37-49): raises a ValueError
naming the missing variables when any required variable is unset or empty;
the error value carries the named list. -/
def _load_environment (env : String → Option String) : Except (List String) Unit :=
  let missing := missing_vars env
  if missing.isEmpty then Except.ok () else Except.error missing

/-- The instance attributes set by `__init__` (src/main.py:29-35).  The
driver field records whether a live driver handle is held; error_occurred is
assigned True at src/main.py:34. -/
structure AutoState where
  product_url : String
  driver : Bool
  headless : Bool
  keep_browser_open : Bool
  error_occurred : Bool
deriving DecidableEq, Repr

/-- Model of `CasioCheckoutAutomation.__init__` (src/main.py:29-35): set the
attributes (driver None, error_occurred True) then validate the environment;
a validation failure escapes as the ValueError of `_load_environment` and no
object state survives. -/
def casioInit (url : String) (headless keepOpen : Bool) (env : String → Option String) :
    Except (List String) AutoState :=
  match _load_environment env with
  | Except.ok _ => Except.ok ⟨url, false, headless, keepOpen, true⟩
  | Except.error m => Except.error m

/-- Which branch of run_checkout's finally block (src/main.py:498-509) runs:
holdThenQuit is the branch that busy-waits and quits the driver on
interrupt; keepOpenForError logs and keeps the browser open; fallThrough
matches neither condition. -/
inductive TeardownPath where
  | holdThenQuit
  | keepOpenForError
  | fallThrough
deriving DecidableEq, Repr

/-- The condition chain of the finally block (src/main.py:499-509). -/
def teardownBranch (st : AutoState) : TeardownPath :=
  if st.driver && !st.keep_browser_open && !st.error_occurred then TeardownPath.holdThenQuit
  else if st.error_occurred then TeardownPath.keepOpenForError
  else TeardownPath.fallThrough

/-- Result of one `run_checkout` call. -/
structure RunOutcome where
  result : Bool
  finalState : AutoState
  teardown : TeardownPath
  effects : List Effect
deriving Repr

/-- Model of `run_checkout` (src/main.py:472-509): initialize the driver
(initOk False models `_initialize_driver` raising, which the except at
src/main.py:494-497 turns into False after setting error_occurred True),
run the four steps with short-circuit on first failure, then take a branch
of the finally block. -/
def run_checkout_shell (st : AutoState) (initOk : Bool) (f : String → Bool) : RunOutcome :=
  if initOk then
    let st1 := { st with driver := true }
    let r := runSteps (checkout_step_names.map fun n => (n, f n))
    match r.1 with
    | PipelineResult.success => ⟨true, st1, teardownBranch st1, [Effect.initDriver]⟩
    | PipelineResult.failedAt _ => ⟨false, st1, teardownBranch st1, [Effect.initDriver]⟩
  else
    let st1 := { st with error_occurred := true }
    ⟨false, st1, teardownBranch st1, [Effect.initDriver]⟩

/-- Construction followed by the run (the flow of `main`, src/main.py:512
onward): when construction raises the configuration error, run_checkout is
never called and no driver effect is issued. -/
def mainFlow (url : String) (headless keepOpen : Bool) (env : String → Option String)
    (initOk : Bool) (f : String → Bool) : Except (List String) Bool × List Effect :=
  match casioInit url headless keepOpen env with
  | Except.error m => (Except.error m, [])
  | Except.ok st =>
    let r := run_checkout_shell st initOk f
    (Except.ok r.result, r.effects)

/-! Concrete environments used by witnesses and counterexamples, and trace
shorthands. -/

/-- Shape of the refresh-fallback trace when the target never resolves:
a reload, the settle delay and the presence wait per attempt, with the
inter-attempt delay between attempts but not after the last. -/
def neverFoundTrace (d : Nat) : Nat → List Effect
  | 0 => []
  | m + 1 =>
    [Effect.refresh, Effect.sleep d, Effect.waitPresence addCartLoc] ++
      (if m == 0 then [] else [Effect.sleep d]) ++ neverFoundTrace d m

/-- Step-outcome function for the C2 witness: only add_to_cart succeeds. -/
def c2StepOutcome : String → Bool := fun n => n == "add_to_cart"

/-- An element that is displayed and enabled but covered by an overlay. -/
def c4CoveredElem : ElemState := ⟨true, true, true⟩

/-- Click environment whose element is clickable but covered at every
attempt. -/
def c4Env : ClickEnv := ⟨some c4CoveredElem, fun _ => true⟩

/-- A two-character text for the typing-order counterexample. -/
def sampleDigits : List Char := ['4', '2']

/-- A form field that commits exactly the written value. -/
def okField : FieldSpec := ⟨true, fun v => v⟩

/-- A form field that silently truncates every written value. -/
def truncatingField : FieldSpec := ⟨true, fun _ => ""⟩

/-- Checkout environment whose second street field truncates. -/
def c7Env : CheckoutEnv :=
  ⟨okField, okField, okField, truncatingField,
   "91234567", "569830", "21 Lower Kent Ridge Rd", "#01-02", true⟩

/-- An environment with no configuration variable set. -/
def emptyEnv : String → Option String := fun _ => none

/-- An environment with every configuration variable set and nonempty. -/
def fullEnv : String → Option String := fun _ => some "set"

/-- Cart environment for the C3 counterexample: the primary element is
clickable (the condition resolves within the timeout) but every click is
intercepted by the overlay, and the refresh fallback never finds the
button. -/
def c3CartEnv : CartEnv :=
  ⟨"https://www.casio.com/sg/watches/casio/product.CA-53WB-8B/",
   ⟨some ⟨true, true, true⟩, fun _ => true⟩, ⟨fun _ => none⟩,
   ⟨some ⟨true, true, true⟩, fun _ => true⟩, true, true, true, true⟩

/-- Click environment whose clickable wait never resolves (timeout). -/
def c5ClickEnvTimeout : ClickEnv := ⟨none, fun _ => false⟩

/-- Refresh environment in which the button never resolves. -/
def c5RefreshEnv : RefreshEnv := ⟨fun _ => none⟩

/-- Cart environment for the C5 witness: the primary wait times out and
every refresh attempt fails. -/
def c5CartEnv : CartEnv :=
  ⟨"https://www.casio.com/sg/watches/casio/product.CA-53WB-8B/", c5ClickEnvTimeout,
   c5RefreshEnv, c5ClickEnvTimeout, true, true, true, true⟩

/-- An element that is displayed and enabled but covered, for C8. -/
def c8CoveredElem : ElemState := ⟨true, true, true⟩

/-- Click environment for the C8 witness: clickable but persistently
covered. -/
def c8Env : ClickEnv := ⟨some c8CoveredElem, fun _ => true⟩

/-! Helper lemmas. -/

theorem clickLoop_all_covered (loc : Locator) (cov : Nat → Bool)
    (h : ∀ j, cov j = true) :
    ∀ n k, clickLoop loc cov n k =
      (false, (List.replicate n [Effect.click loc, Effect.sleep 1000]).flatten) := by
  intro n
  induction n with
  | zero => intro k; simp [clickLoop]
  | succ m ih =>
    intro k
    simp [clickLoop, h k, ih (k + 1), List.replicate_succ]

/-- C1: the payment stage always leaves the top-level document as the active
context, on every exit path — body success, body failure, iframe wait
failure — because the finally block switches back to default content; and it
succeeds exactly when the iframe is found and the card-filling body
completes. -/
theorem handle_payment_restores_top_context (env : PayEnv) (ctx : Ctx) :
    (handle_payment env ctx).2 = Ctx.top ∧
    ((handle_payment env ctx).1 = true ↔ env.iframeFound = true ∧ env.cardFieldsOk = true) := by
  cases hif : env.iframeFound <;> cases hcf : env.cardFieldsOk <;>
    simp [handle_payment, handle_payment_try, switch_to_default_content, hif, hcf]

/-- C4: an action whose click is intercepted on every attempt is clicked
exactly 3 times (the hardcoded retry count), with the 1-second inter-attempt
delay slept between consecutive attempts (the trace is click, sleep, click,
sleep, click, sleep), and `_wait_and_click` reports failure by returning
False rather than letting the exception escape. -/
theorem click_retry_policy_exhausts (loc : Locator) (env : ClickEnv) (e : ElemState)
    (hres : element_to_be_clickable env.elem = some e)
    (hcov : ∀ k, env.coveredAt k = true) :
    (_wait_and_click loc env).1 = false ∧
    countClicks (_wait_and_click loc env).2 = 3 ∧
    clickLoop loc env.coveredAt 3 0 =
      (false, [Effect.click loc, Effect.sleep 1000, Effect.click loc, Effect.sleep 1000,
               Effect.click loc, Effect.sleep 1000]) := by
  have hloop3 : clickLoop loc env.coveredAt 3 0 =
      (false, [Effect.click loc, Effect.sleep 1000, Effect.click loc, Effect.sleep 1000,
               Effect.click loc, Effect.sleep 1000]) := by
    rw [clickLoop_all_covered loc env.coveredAt hcov 3 0]
    rfl
  have hw : _wait_and_click loc env =
      (false, Effect.waitClickable loc :: Effect.hitTest ::
        ((if e.coveredAtCenter then [Effect.scrollIntoView] else []) ++
         [Effect.click loc, Effect.sleep 1000, Effect.click loc, Effect.sleep 1000,
          Effect.click loc, Effect.sleep 1000])) := by
    unfold _wait_and_click
    rw [hres, hloop3]
  rw [hw]
  refine ⟨rfl, ?_, hloop3⟩
  cases e.coveredAtCenter <;> simp [countClicks]

/-- Witness for C4 at a concrete environment: the add-to-cart button is
clickable but covered at every attempt. -/
theorem click_retry_policy_exhausts_witness :
    (_wait_and_click addCartLoc c4Env).1 = false ∧
    countClicks (_wait_and_click addCartLoc c4Env).2 = 3 ∧
    clickLoop addCartLoc c4Env.coveredAt 3 0 =
      (false, [Effect.click addCartLoc, Effect.sleep 1000, Effect.click addCartLoc,
               Effect.sleep 1000, Effect.click addCartLoc, Effect.sleep 1000]) :=
  click_retry_policy_exhausts addCartLoc c4Env c4CoveredElem rfl (fun _ => rfl)

/-- C6 counterexample: the script dispatches the input event first, then
keydown, keypress, keyup — not key-down, key-press, key-up, input as the
claim states; the two orders already differ on a two-character text. -/
theorem typing_event_order_counterexample :
    simulate_typing sampleDigits 200 ≠ simulate_typing_specOrder sampleDigits 200 := by
  decide

/-- C6 (amended): for every character the synthesizer appends the character
to the field value and then dispatches input, key-down, key-press, key-up in
that order, then sleeps the per-character delay; the whole trace is the
concatenation of these per-character blocks, and replaying it appends
exactly the typed text to the field value. -/
theorem simulate_typing_characterization (text : List Char) (delayMs : Nat) (v : List Char) :
    simulate_typing text delayMs = (text.map (fun c => typeCharEffects c delayMs)).flatten ∧
    typedValue (simulate_typing text delayMs) v = v ++ text := by
  induction text generalizing v with
  | nil => simp [simulate_typing, typedValue]
  | cons c rest ih =>
    constructor
    · simp [simulate_typing, typeCharEffects, (ih v).1]
    · simp [simulate_typing, typedValue, (ih (v ++ [c])).2]

/-- C2: the pipeline advances only past succeeding steps; on the first
failing step the run stops, the result names exactly that step, and the
invoked-step list is the succeeding prefix plus the failing step — in
particular, when add_to_cart succeeds and handle_login fails, the
address-details and payment steps are never invoked. -/
theorem pipeline_short_circuit (f : String → Bool) :
    (∀ n, (run_checkout_pipeline f).1 = PipelineResult.failedAt n →
      f n = false ∧
      (run_checkout_pipeline f).2 = checkout_step_names.takeWhile f ++ [n] ∧
      ∀ m, m ∈ checkout_step_names.takeWhile f → f m = true) ∧
    (f "add_to_cart" = true → f "handle_login" = false →
      run_checkout_pipeline f =
        (PipelineResult.failedAt "handle_login", ["add_to_cart", "handle_login"])) := by
  cases h1 : f "add_to_cart" <;> cases h2 : f "handle_login" <;>
    cases h3 : f "fill_checkout_details" <;> cases h4 : f "handle_payment" <;>
      constructor <;>
        simp_all [run_checkout_pipeline, runSteps, checkout_step_names, List.takeWhile]

/-- Witness for C2: with outcomes where only add_to_cart succeeds, the run
fails at handle_login and only the first two steps are invoked. -/
theorem pipeline_short_circuit_witness :
    run_checkout_pipeline c2StepOutcome =
      (PipelineResult.failedAt "handle_login", ["add_to_cart", "handle_login"]) ∧
    c2StepOutcome "handle_login" = false ∧
    (∀ m, m ∈ checkout_step_names.takeWhile c2StepOutcome → c2StepOutcome m = true) := by
  refine ⟨(pipeline_short_circuit c2StepOutcome).2 (by decide) (by decide), ?_, ?_⟩
  · exact ((pipeline_short_circuit c2StepOutcome).1 "handle_login" (by decide)).1
  · exact ((pipeline_short_circuit c2StepOutcome).1 "handle_login" (by decide)).2.2

theorem fillFields_false_of_mismatch (l : List (FieldSpec × String)) (fs : FieldSpec)
    (v : String) (hmem : (fs, v) ∈ l) (hdiff : fs.committed v ≠ v) :
    fillFields l = false := by
  induction l with
  | nil => simp at hmem
  | cons hd tl ih =>
    rcases List.mem_cons.mp hmem with heq | htl
    · subst heq
      have hbeq : (fs.committed v == v) = false := by
        simp [hdiff]
      simp [fillFields, fill_verified_field, hbeq]
    · cases hd with
      | mk fs2 v2 =>
        by_cases hfv : fill_verified_field fs2 v2 = true
        · simp [fillFields, hfv, ih htl]
        · simp [fillFields, hfv]

/-- C7: if for any of the four address fields the value read back after the
write differs from the intended value, the raised verification error is
caught and the address-details step returns failure. -/
theorem fill_verify_mismatch_fails (env : CheckoutEnv)
    (h : env.telephone.committed env.phoneVal ≠ env.phoneVal ∨
         env.postcode.committed env.postcodeVal ≠ env.postcodeVal ∨
         env.street1.committed env.street1Val ≠ env.street1Val ∨
         env.street2.committed env.street2Val ≠ env.street2Val) :
    fill_checkout_details env = false := by
  have hf : fillFields (checkoutFieldList env) = false := by
    rcases h with h | h | h | h
    · exact fillFields_false_of_mismatch _ _ _ (by simp [checkoutFieldList]) h
    · exact fillFields_false_of_mismatch _ _ _ (by simp [checkoutFieldList]) h
    · exact fillFields_false_of_mismatch _ _ _ (by simp [checkoutFieldList]) h
    · exact fillFields_false_of_mismatch _ _ _ (by simp [checkoutFieldList]) h
  simp [fill_checkout_details, hf]

/-- Witness for C7: a second street field that silently truncates to the
empty string makes the step fail. -/
theorem fill_verify_mismatch_fails_witness : fill_checkout_details c7Env = false :=
  fill_verify_mismatch_fails c7Env (Or.inr (Or.inr (Or.inr (by decide))))

/-- C9: with any required configuration setting unset, construction fails
with the error naming exactly the unset-or-empty required settings, and no
driver effect — in particular no navigation — is ever issued. -/
theorem config_missing_preflight (url : String) (headless keepOpen : Bool)
    (env : String → Option String) (initOk : Bool) (f : String → Bool) (v : String)
    (hv : v ∈ required_vars) (hmiss : env v = none) :
    mainFlow url headless keepOpen env initOk f = (Except.error (missing_vars env), []) ∧
    v ∈ missing_vars env ∧
    (∀ w, w ∈ missing_vars env ↔ w ∈ required_vars ∧ envFalsy env w = true) := by
  have hvmem : v ∈ missing_vars env :=
    List.mem_filter.mpr ⟨hv, by simp [envFalsy, hmiss]⟩
  have hne : (missing_vars env).isEmpty = false := by
    cases hmv : missing_vars env with
    | nil => rw [hmv] at hvmem; simp at hvmem
    | cons a l => simp
  have hload : _load_environment env = Except.error (missing_vars env) := by
    simp [_load_environment, hne]
  refine ⟨?_, hvmem, ?_⟩
  · simp [mainFlow, casioInit, hload]
  · intro w
    exact ⟨fun hw => List.mem_filter.mp hw, fun hw => List.mem_filter.mpr hw⟩

/-- Witness for C9: an environment with no variables set, missing the
card-expiry setting in particular. -/
theorem config_missing_preflight_witness :
    mainFlow "https://www.casio.com/sg/watches/casio/product.CA-53WB-8B/" false false emptyEnv
        true (fun _ => true) = (Except.error (missing_vars emptyEnv), []) ∧
    "CARD_EXPIRY" ∈ missing_vars emptyEnv ∧
    (∀ w, w ∈ missing_vars emptyEnv ↔ w ∈ required_vars ∧ envFalsy emptyEnv w = true) :=
  config_missing_preflight "https://www.casio.com/sg/watches/casio/product.CA-53WB-8B/" false
    false emptyEnv true (fun _ => true) "CARD_EXPIRY" (by decide) rfl

/-- C10: every successfully constructed automation object has error_occurred
already True, the flag is still True after any run, the finally block
therefore always takes the keep-open-due-to-error branch and never the
branch that quits the driver — even when every step succeeds and the run
returns True. -/
theorem error_flag_never_cleared (url : String) (headless keepOpen : Bool)
    (env : String → Option String) (st : AutoState)
    (hinit : casioInit url headless keepOpen env = Except.ok st) :
    st.error_occurred = true ∧
    ∀ (initOk : Bool) (f : String → Bool),
      (run_checkout_shell st initOk f).finalState.error_occurred = true ∧
      (run_checkout_shell st initOk f).teardown = TeardownPath.keepOpenForError ∧
      (run_checkout_shell st initOk f).teardown ≠ TeardownPath.holdThenQuit ∧
      ((∀ n, f n = true) → initOk = true → (run_checkout_shell st initOk f).result = true) := by
  have hst : st = ⟨url, false, headless, keepOpen, true⟩ := by
    unfold casioInit at hinit
    cases hl : _load_environment env <;> rw [hl] at hinit <;> simp_all
  subst hst
  refine ⟨rfl, ?_⟩
  intro initOk f
  have hrun : (∀ n, f n = true) →
      (runSteps (checkout_step_names.map fun n => (n, f n))).1 = PipelineResult.success := by
    intro hg
    simp [checkout_step_names, runSteps, hg]
  cases initOk with
  | false =>
    refine ⟨rfl, ?_, ?_, ?_⟩
    · simp [run_checkout_shell, teardownBranch]
    · simp [run_checkout_shell, teardownBranch]
    · intro _ hcontra
      cases hcontra
  | true =>
    cases hr : (runSteps (checkout_step_names.map fun n => (n, f n))).1 with
    | success =>
      refine ⟨?_, ?_, ?_, ?_⟩ <;> simp [run_checkout_shell, teardownBranch, hr]
    | failedAt m =>
      refine ⟨?_, ?_, ?_, ?_⟩
      · simp [run_checkout_shell, teardownBranch, hr]
      · simp [run_checkout_shell, teardownBranch, hr]
      · simp [run_checkout_shell, teardownBranch, hr]
      · intro hall _
        have hs := hrun hall
        rw [hr] at hs
        simp at hs

/-- Witness for C10: a fully configured environment and a run in which every
step succeeds still ends on the keep-open-due-to-error branch. -/
theorem error_flag_never_cleared_witness :
    ((⟨"u", false, false, false, true⟩ : AutoState).error_occurred = true) ∧
    (run_checkout_shell ⟨"u", false, false, false, true⟩ true (fun _ => true)).teardown =
      TeardownPath.keepOpenForError ∧
    (run_checkout_shell ⟨"u", false, false, false, true⟩ true (fun _ => true)).result = true := by
  have h := error_flag_never_cleared "u" false false fullEnv ⟨"u", false, false, false, true⟩ rfl
  exact ⟨h.1, (h.2 true (fun _ => true)).2.1,
    (h.2 true (fun _ => true)).2.2.2 (fun n => rfl) rfl⟩

theorem refresh_not_in_clickLoop (loc : Locator) (cov : Nat → Bool) :
    ∀ n k, Effect.refresh ∉ (clickLoop loc cov n k).2 := by
  intro n
  induction n with
  | zero => intro k; simp [clickLoop]
  | succ m ih =>
    intro k
    cases hc : cov k <;> simp [clickLoop, hc, ih (k + 1)]

theorem refresh_not_in_wait_and_click (loc : Locator) (env : ClickEnv) :
    Effect.refresh ∉ (_wait_and_click loc env).2 := by
  unfold _wait_and_click
  cases he : element_to_be_clickable env.elem with
  | none => simp
  | some e =>
    cases hc : e.coveredAtCenter <;>
      simp [hc, refresh_not_in_clickLoop loc env.coveredAt 3 0]

theorem refresh_not_in_cartTail (env : CartEnv) :
    Effect.refresh ∉ (cartTail env).2 := by
  cases hm : env.modalAppears <;> cases hc : env.checkoutBtnClickable <;>
    cases hu : env.cartUrlReached <;> cases hp : env.proceedBtnClickable <;>
      simp [cartTail, hm, hc, hu, hp]

theorem refresh_mem_refreshLoop (env : RefreshEnv) (d : Nat) (m k : Nat) :
    Effect.refresh ∈ (refreshLoop env d (m + 1) k).2 := by
  cases hf : refreshAttemptFound env k <;> simp [refreshLoop, hf]

/-- C3 counterexample: in this environment the primary wait-and-click fails
although its clickable condition resolved within the timeout — every click
attempt is intercepted — and the refresh-and-retry fallback is nevertheless
invoked, because add_to_cart cannot distinguish the two failure causes from
the boolean result of `_wait_and_click`. -/
theorem refresh_after_interception :
    (_wait_and_click addCartLoc c3CartEnv.primary).1 = false ∧
    element_to_be_clickable c3CartEnv.primary.elem ≠ none ∧
    Effect.refresh ∈ (add_to_cart c3CartEnv).2 := by
  refine ⟨by decide, by decide, ?_⟩
  decide

/-- C3 (amended): the refresh-and-retry fallback is invoked exactly when the
primary wait-and-click on the cart-entry button returns failure, regardless
of whether that failure was a condition timeout or an exhaustion of the
intercepted-click retries. -/
theorem refresh_invoked_iff_primary_fails (env : CartEnv) :
    Effect.refresh ∈ (add_to_cart env).2 ↔
      (_wait_and_click addCartLoc env.primary).1 = false := by
  cases hp : (_wait_and_click addCartLoc env.primary).1 with
  | true =>
    simp [add_to_cart, hp, refresh_not_in_wait_and_click addCartLoc env.primary,
      refresh_not_in_cartTail env]
  | false =>
    have hmem : Effect.refresh ∈ (_refresh_and_retry env.refreshEnv 3 5000).2 :=
      refresh_mem_refreshLoop env.refreshEnv 5000 2 0
    cases hr : (_refresh_and_retry env.refreshEnv 3 5000).1 with
    | true =>
      cases hs : (_wait_and_click addCartLoc env.secondary).1 <;>
        simp [add_to_cart, hp, hr, hs, hmem]
    | false =>
      simp [add_to_cart, hp, hr, hmem]

theorem refreshLoop_never_found (env : RefreshEnv) (d : Nat)
    (h : ∀ j, refreshAttemptFound env j = false) :
    ∀ n k, refreshLoop env d n k = (false, neverFoundTrace d n) := by
  intro n
  induction n with
  | zero => intro k; simp [refreshLoop, neverFoundTrace]
  | succ m ih =>
    intro k
    simp [refreshLoop, h k, ih (k + 1), neverFoundTrace]

/-- C5: when the cart-entry target never resolves, the fallback performs
exactly 3 attempts (the configured default), each a page reload followed by
the 5-second settle delay and the presence wait, then returns failure; with
the primary click also failing, add_to_cart returns failure and the pipeline
run fails at the cart-entry step with no later step invoked. -/
theorem refresh_retry_exhaustion (env : CartEnv)
    (hprimary : (_wait_and_click addCartLoc env.primary).1 = false)
    (hnever : ∀ k, refreshAttemptFound env.refreshEnv k = false) :
    _refresh_and_retry env.refreshEnv 3 5000 =
      (false,
       [Effect.refresh, Effect.sleep 5000, Effect.waitPresence addCartLoc, Effect.sleep 5000,
        Effect.refresh, Effect.sleep 5000, Effect.waitPresence addCartLoc, Effect.sleep 5000,
        Effect.refresh, Effect.sleep 5000, Effect.waitPresence addCartLoc]) ∧
    countRefreshes (_refresh_and_retry env.refreshEnv 3 5000).2 = 3 ∧
    (add_to_cart env).1 = false ∧
    (∀ login details payment : Bool,
      run_checkout_pipeline (pipelineOutcomes (add_to_cart env).1 login details payment) =
        (PipelineResult.failedAt "add_to_cart", ["add_to_cart"])) := by
  have hloop : _refresh_and_retry env.refreshEnv 3 5000 =
      (false,
       [Effect.refresh, Effect.sleep 5000, Effect.waitPresence addCartLoc, Effect.sleep 5000,
        Effect.refresh, Effect.sleep 5000, Effect.waitPresence addCartLoc, Effect.sleep 5000,
        Effect.refresh, Effect.sleep 5000, Effect.waitPresence addCartLoc]) := by
    unfold _refresh_and_retry
    rw [refreshLoop_never_found env.refreshEnv 5000 hnever 3 0]
    rfl
  have hcart : (add_to_cart env).1 = false := by
    simp [add_to_cart, hprimary, hloop]
  refine ⟨hloop, ?_, hcart, ?_⟩
  · rw [hloop]
    rfl
  · intro login details payment
    rw [hcart]
    simp [run_checkout_pipeline, runSteps, checkout_step_names, pipelineOutcomes]

/-- Witness for C5 at a concrete environment: the primary wait times out and
no refresh attempt ever finds the button. -/
theorem refresh_retry_exhaustion_witness :
    countRefreshes (_refresh_and_retry c5CartEnv.refreshEnv 3 5000).2 = 3 ∧
    (add_to_cart c5CartEnv).1 = false ∧
    run_checkout_pipeline (pipelineOutcomes (add_to_cart c5CartEnv).1 true true true) =
      (PipelineResult.failedAt "add_to_cart", ["add_to_cart"]) := by
  have h := refresh_retry_exhaustion c5CartEnv rfl (fun _ => rfl)
  exact ⟨h.2.1, h.2.2.1, h.2.2.2 true true true⟩

/-- C8 counterexample: the element-clickable wait does not return failure
for a covered element — an element that is displayed and enabled resolves
successfully even though its geometric center is covered by another
element. -/
theorem clickable_wait_false_positive :
    ¬ ∀ e : ElemState, e.coveredAtCenter = true → element_to_be_clickable (some e) = none := by
  intro h
  have hc := h c8CoveredElem rfl
  simp [element_to_be_clickable, c8CoveredElem] at hc

/-- C8 (amended): the element-clickable wait checks only that the element is
displayed and enabled, so it succeeds (a false-positive resolution) for an
element fully covered at its hit-test center; `_wait_and_click` as a whole
still returns failure for a persistently covered element, because every
click raises the intercepted-click exception and the retries are
exhausted. -/
theorem clickable_wait_ignores_cover (loc : Locator) (env : ClickEnv) (e : ElemState)
    (hd : e.displayed = true) (hen : e.enabled = true) (helem : env.elem = some e)
    (hcov : ∀ k, env.coveredAt k = true) :
    element_to_be_clickable env.elem = some e ∧
    (_wait_and_click loc env).1 = false := by
  have hres : element_to_be_clickable env.elem = some e := by
    rw [helem]
    simp [element_to_be_clickable, hd, hen]
  refine ⟨hres, ?_⟩
  have hloop := clickLoop_all_covered loc env.coveredAt hcov 3 0
  unfold _wait_and_click
  rw [hres]
  simp [hloop]

/-- Witness for C8 at a concrete environment: a displayed, enabled element
that is covered at every click attempt. -/
theorem clickable_wait_ignores_cover_witness :
    element_to_be_clickable c8Env.elem = some c8CoveredElem ∧
    (_wait_and_click proceedBtnLoc c8Env).1 = false :=
  clickable_wait_ignores_cover proceedBtnLoc c8Env c8CoveredElem rfl rfl rfl (fun _ => rfl)

end Checkout
